import Mathlib

/-!
Verification of the multisig-security Safe analyzer.

The development shallowly embeds the repository's logic:
* `test-chain-config.js` : the chain registry, `checkContractCode` and
  `checkChainConfiguration` (cross-chain probing of a Safe address);
* `src/constants/tooltips.ts` : the `SECURITY_CHECK_TOOLTIPS` table and
  `getTooltipInfo`;
* the official fallback-handler registry and the module-list sentinel
  address from the constants file.
Rule-evaluation functions whose implementation is not part of the
repository snapshot are modelled from the specification and marked as
such in their doc comments.
-/

namespace MultisigSec

/-- Status of one security check: Pass / Warn / Fail / Unknown. -/
inductive CheckStatus where
  | Pass
  | Warn
  | Fail
  | Unknown
deriving DecidableEq, Repr

/-- One supported chain from the `SUPPORTED_CHAINS` table of
`test-chain-config.js` (the `viemChain` handle is network plumbing and is
not part of the embedded state). -/
structure Chain where
  id : Nat
  name : String
  rpcUrl : String
deriving DecidableEq, Repr

/-- The five-entry `SUPPORTED_CHAINS` registry of `test-chain-config.js`. -/
def SUPPORTED_CHAINS : List Chain :=
  [ { id := 1, name := "Ethereum", rpcUrl := "https://eth.drpc.org" },
    { id := 8453, name := "Base", rpcUrl := "https://base.drpc.org" },
    { id := 42161, name := "Arbitrum", rpcUrl := "https://arbitrum.drpc.org" },
    { id := 10, name := "Optimism", rpcUrl := "https://optimism.drpc.org" },
    { id := 137, name := "Polygon", rpcUrl := "https://polygon.drpc.org" } ]

/-- The RPC environment a probe runs against: the outcome of the
`getBytecode` call (error, or no code `none`, or the code string) and of
the `readContract VERSION` call, per chain.  This abstracts the network
behind `createClient` in `test-chain-config.js`. -/
structure ProbeEnv where
  getBytecode : Chain → Except Unit (Option String)
  readVersion : Chain → Except Unit String

/-- `checkContractCode` from `test-chain-config.js`: true when the
bytecode read succeeds and returns a defined, non-`0x` code; any thrown
error yields false. -/
def checkContractCode (env : ProbeEnv) (chain : Chain) : Bool :=
  match env.getBytecode chain with
  | .error _ => false
  | .ok none => false
  | .ok (some code) => code != "0x"

/-- The `VERSION()` read inside `checkChainConfiguration`: true when the
call succeeds, false when it throws (not a Safe contract). -/
def versionReadOk (env : ProbeEnv) (chain : Chain) : Bool :=
  match env.readVersion chain with
  | .ok _ => true
  | .error _ => false

/-- Result record of `checkChainConfiguration`. -/
structure ChainConfigResult where
  deployedChains : List Chain
  isMultiChain : Bool
  totalDeployments : Nat
deriving DecidableEq, Repr

/-- `checkChainConfiguration` from `test-chain-config.js`: for each
supported chain in order, the chain is pushed onto `deployedChains`
exactly when `checkContractCode` returns true and the `VERSION()` read
succeeds; errors on one chain are caught and only skip that chain. -/
def checkChainConfiguration (env : ProbeEnv) : ChainConfigResult :=
  let deployedChains :=
    SUPPORTED_CHAINS.filter (fun chain => checkContractCode env chain && versionReadOk env chain)
  { deployedChains := deployedChains
    isMultiChain := decide (deployedChains.length > 1)
    totalDeployments := deployedChains.length }

/-- A concrete environment where the address is a valid Safe (non-empty
code, successful `VERSION()` read) on exactly the Ethereum and Base
chains out of the five registered ones. -/
def twoChainEnv : ProbeEnv where
  getBytecode := fun c => if c.id = 1 ∨ c.id = 8453 then .ok (some "0x6080") else .ok none
  readVersion := fun c => if c.id = 1 ∨ c.id = 8453 then .ok "1.4.1" else .error ()

/-- An environment where every RPC call fails with a network error. -/
def allErrorEnv : ProbeEnv where
  getBytecode := fun _ => .error ()
  readVersion := fun _ => .error ()

/-- The Ethereum entry of the registry, used as a concrete probe target. -/
def ethereumChain : Chain := { id := 1, name := "Ethereum", rpcUrl := "https://eth.drpc.org" }

lemma supported_chains_length : SUPPORTED_CHAINS.length = 5 := rfl

lemma mem_deployedChains (env : ProbeEnv) (c : Chain) :
    c ∈ (checkChainConfiguration env).deployedChains ↔
      c ∈ SUPPORTED_CHAINS ∧ checkContractCode env c = true ∧ versionReadOk env c = true := by
  simp [checkChainConfiguration, List.mem_filter, Bool.and_eq_true]

lemma checkContractCode_eq_true_iff (env : ProbeEnv) (c : Chain) :
    checkContractCode env c = true ↔
      ∃ code, env.getBytecode c = .ok (some code) ∧ code ≠ "0x" := by
  unfold checkContractCode
  cases h : env.getBytecode c with
  | error e => simp
  | ok o =>
    cases o with
    | none => simp
    | some code => simp [bne_iff_ne]

lemma versionReadOk_eq_true_iff (env : ProbeEnv) (c : Chain) :
    versionReadOk env c = true ↔ ∃ v, env.readVersion c = .ok v := by
  unfold versionReadOk
  cases h : env.readVersion c <;> simp

lemma checkContractCode_congr {env env' : ProbeEnv} {c : Chain}
    (h : env.getBytecode c = env'.getBytecode c) :
    checkContractCode env c = checkContractCode env' c := by
  unfold checkContractCode
  rw [h]

lemma versionReadOk_congr {env env' : ProbeEnv} {c : Chain}
    (h : env.readVersion c = env'.readVersion c) :
    versionReadOk env c = versionReadOk env' c := by
  unfold versionReadOk
  rw [h]

/-- C1: a chain counts as a deployment exactly when the address has
non-empty contract code there and the `VERSION()` read succeeds;
`totalDeployments` is the number of such chains; `isMultiChain` holds
exactly when that count exceeds 1; and a Safe valid on exactly 2 of the
5 registered chains yields `isMultiChain = true`, `totalDeployments = 2`. -/
theorem chain_probe_cross_chain_correct (env : ProbeEnv) :
    (∀ c, c ∈ (checkChainConfiguration env).deployedChains ↔
      c ∈ SUPPORTED_CHAINS ∧
      (∃ code, env.getBytecode c = .ok (some code) ∧ code ≠ "0x") ∧
      (∃ v, env.readVersion c = .ok v))
  ∧ (checkChainConfiguration env).totalDeployments =
      SUPPORTED_CHAINS.countP (fun c => checkContractCode env c && versionReadOk env c)
  ∧ ((checkChainConfiguration env).isMultiChain = true ↔
      1 < (checkChainConfiguration env).totalDeployments)
  ∧ (checkChainConfiguration twoChainEnv).isMultiChain = true
  ∧ (checkChainConfiguration twoChainEnv).totalDeployments = 2 := by
  refine ⟨fun c => ?_, ?_, ?_, by decide, by decide⟩
  · rw [mem_deployedChains, checkContractCode_eq_true_iff, versionReadOk_eq_true_iff]
  · simp [checkChainConfiguration, List.countP_eq_length_filter]
  · simp [checkChainConfiguration]

/-- Witness for C1 at the concrete two-of-five environment. -/
theorem chain_probe_cross_chain_correct_witness :
    (checkChainConfiguration twoChainEnv).isMultiChain = true :=
  (chain_probe_cross_chain_correct twoChainEnv).2.2.2.1

/-- C2: a chain whose bytecode read or `VERSION()` read errors is
recorded as absent, and the presence recorded for a chain depends only
on that chain's own RPC outcomes — errors on any other chain (and the
probe as a whole never failing) leave it unchanged. -/
theorem probe_failure_isolation (env env' : ProbeEnv) (c : Chain)
    (hb : env.getBytecode c = env'.getBytecode c)
    (hv : env.readVersion c = env'.readVersion c) :
    ((env.getBytecode c = .error () ∨ env.readVersion c = .error ()) →
        c ∉ (checkChainConfiguration env).deployedChains)
  ∧ (c ∈ (checkChainConfiguration env).deployedChains ↔
        c ∈ (checkChainConfiguration env').deployedChains) := by
  constructor
  · rintro (herr | herr) hmem
    · have h := ((mem_deployedChains env c).mp hmem).2.1
      rw [checkContractCode_eq_true_iff] at h
      obtain ⟨code, hcode, -⟩ := h
      rw [herr] at hcode
      exact Except.noConfusion hcode
    · have h := ((mem_deployedChains env c).mp hmem).2.2
      rw [versionReadOk_eq_true_iff] at h
      obtain ⟨v, hver⟩ := h
      rw [herr] at hver
      exact Except.noConfusion hver
  · rw [mem_deployedChains, mem_deployedChains,
      checkContractCode_congr hb, versionReadOk_congr hv]

/-- Witness for C2: with every RPC call failing, Ethereum is recorded
absent. -/
theorem probe_failure_isolation_witness :
    ethereumChain ∉ (checkChainConfiguration allErrorEnv).deployedChains :=
  (probe_failure_isolation allErrorEnv allErrorEnv ethereumChain rfl rfl).1 (Or.inl rfl)

/-- C9: invariant of `checkChainConfiguration` — `totalDeployments`
equals the length of `deployedChains`, `isMultiChain` holds iff that
count exceeds 1, and `deployedChains` is a duplicate-free subsequence of
the 5-entry registry in registry order, so the count is at most 5. -/
theorem chain_config_result_invariant (env : ProbeEnv) :
    (checkChainConfiguration env).totalDeployments =
        (checkChainConfiguration env).deployedChains.length
  ∧ ((checkChainConfiguration env).isMultiChain = true ↔
        1 < (checkChainConfiguration env).totalDeployments)
  ∧ (checkChainConfiguration env).deployedChains.Sublist SUPPORTED_CHAINS
  ∧ (checkChainConfiguration env).deployedChains.Nodup
  ∧ (checkChainConfiguration env).totalDeployments ≤ 5 := by
  have hsub : (checkChainConfiguration env).deployedChains.Sublist SUPPORTED_CHAINS :=
    List.filter_sublist _
  have hnodup : SUPPORTED_CHAINS.Nodup := by decide
  refine ⟨rfl, by simp [checkChainConfiguration], hsub, hnodup.sublist hsub, ?_⟩
  have h5 : SUPPORTED_CHAINS.length = 5 := by decide
  calc (checkChainConfiguration env).totalDeployments
      = (checkChainConfiguration env).deployedChains.length := rfl
    _ ≤ SUPPORTED_CHAINS.length := hsub.length_le
    _ = 5 := h5

/-- Witness for C9 at a concrete environment. -/
theorem chain_config_result_invariant_witness :
    (checkChainConfiguration allErrorEnv).totalDeployments ≤ 5 :=
  (chain_config_result_invariant allErrorEnv).2.2.2.2

/-- One `status`/`condition` entry of a tooltip threshold list, from the
`TooltipInfo` interface of `src/constants/tooltips.ts`. -/
structure ThresholdEntry where
  status : String
  condition : String
deriving DecidableEq, Repr

/-- The `TooltipInfo` record of `src/constants/tooltips.ts`. -/
structure TooltipInfo where
  description : String
  thresholds : List ThresholdEntry
  learnMoreUrl : String
deriving DecidableEq, Repr

/-- The `SECURITY_CHECK_TOOLTIPS` table of `src/constants/tooltips.ts`,
embedded as an association list in source order. -/
def SECURITY_CHECK_TOOLTIPS : List (String × TooltipInfo) :=
  [ ("Signer Threshold",
     { description := "The number of signatures required to execute transactions. Higher thresholds provide better security."
       thresholds :=
         [ { status := "✅ Success", condition := "Threshold ≥ 4 signatures" },
           { status := "⚠️ Warning", condition := "Threshold 2-3 signatures" },
           { status := "❌ Error", condition := "Threshold = 1 signature (single point of failure)" } ]
       learnMoreUrl := "https://docs.safe.global/advanced/smart-account-signatures" }),
    ("Signer Threshold Percentage",
     { description := "The percentage of owners required to approve transactions. Higher percentages reduce risk of collusion."
       thresholds :=
         [ { status := "✅ Success", condition := "Threshold ≥ 51% of owners" },
           { status := "⚠️ Warning", condition := "Threshold 34-50% of owners" },
           { status := "❌ Error", condition := "Threshold < 34% of owners" } ]
       learnMoreUrl := "https://docs.safe.global/advanced/smart-account-signatures" }),
    ("Safe Version",
     { description := "The version of the Safe smart contract. Newer versions include security improvements and bug fixes."
       thresholds :=
         [ { status := "✅ Success", condition := "Latest or second-latest version (within 180 days)" },
           { status := "⚠️ Warning", condition := "Outdated version (1-2 versions behind)" },
           { status := "❌ Error", condition := "Very outdated version (3+ versions behind)" } ]
       learnMoreUrl := "https://github.com/safe-global/safe-smart-account/releases" }),
    ("Contract Creation Date",
     { description := "How long the Safe has existed. Newer contracts carry higher risk as they have less operational history."
       thresholds :=
         [ { status := "✅ Success", condition := "Deployed > 60 days ago" },
           { status := "⚠️ Warning", condition := "Deployed 7-60 days ago" },
           { status := "❌ Error", condition := "Deployed < 7 days ago (very new)" } ]
       learnMoreUrl := "https://docs.safe.global/" }),
    ("Multisig Nonce",
     { description := "The number of transactions executed. Higher nonces indicate active usage and operational maturity."
       thresholds :=
         [ { status := "✅ Success", condition := "Nonce > 10 transactions" },
           { status := "⚠️ Warning", condition := "Nonce 4-10 transactions" },
           { status := "❌ Error", condition := "Nonce ≤ 3 transactions (minimal usage)" } ]
       learnMoreUrl := "https://docs.safe.global/advanced/smart-account-signatures" }),
    ("Last Transaction Date",
     { description := "When the Safe was last used. Long periods of inactivity may indicate abandonment."
       thresholds :=
         [ { status := "✅ Success", condition := "Used within last 30 days" },
           { status := "⚠️ Warning", condition := "Used 30-90 days ago" },
           { status := "❌ Error", condition := "Inactive for 90+ days" } ]
       learnMoreUrl := "https://docs.safe.global/" }),
    ("Optional Modules",
     { description := "Additional functionality modules installed on the Safe. Modules can add features but also increase attack surface."
       thresholds :=
         [ { status := "✅ Success", condition := "No modules enabled (standard Safe only)" },
           { status := "⚠️ Warning", condition := "One or more modules enabled (requires review)" } ]
       learnMoreUrl := "https://docs.safe.global/advanced/smart-account-modules" }),
    ("Transaction Guard",
     { description := "A guard contract that validates transactions before execution. Can add security but requires careful review."
       thresholds :=
         [ { status := "✅ Success", condition := "No guard enabled (standard execution)" },
           { status := "⚠️ Warning", condition := "Guard enabled (review guard contract security)" } ]
       learnMoreUrl := "https://docs.safe.global/advanced/smart-account-guards" }),
    ("Fallback Handler",
     { description := "A contract that handles calls to undefined functions. Official Safe fallback handlers are safe and provide features like EIP-1271 signature verification."
       thresholds :=
         [ { status := "✅ Success", condition := "No fallback handler (standard Safe) or known official Safe fallback handler" },
           { status := "⚠️ Warning", condition := "Custom fallback handler enabled (review handler security)" } ]
       learnMoreUrl := "https://help.safe.global/en/articles/40838-what-is-a-fallback-handler-and-how-does-it-relate-to-safe" }),
    ("Chain Configuration",
     { description := "Checks if the Safe exists on multiple chains. Multi-chain deployments create replay attack risks. Security implications include: (1) Replay attack risk - signatures from one chain could potentially be replayed on another, (2) Ensure transactions include proper chain ID verification, (3) Consider using different Safe addresses for different chains."
       thresholds :=
         [ { status := "✅ Success", condition := "Deployed on single chain only" },
           { status := "⚠️ Warning", condition := "Deployed on multiple chains (replay attack risk)" } ]
       learnMoreUrl := "https://docs.safe.global/advanced/eip-155" }),
    ("Owner Activity Analysis",
     { description := "Checks if owner addresses are used for non-multisig transactions. Dedicated signing keys are more secure."
       thresholds :=
         [ { status := "✅ Success", condition := "All owners inactive (dedicated signing keys)" },
           { status := "⚠️ Warning", condition := "Some owners have recent non-multisig activity" } ]
       learnMoreUrl := "https://docs.safe.global/advanced/smart-account-signatures" }),
    ("Emergency Recovery Mechanisms",
     { description := "Checks for recovery modules and validates their configuration. Recovery thresholds should not be lower than normal thresholds."
       thresholds :=
         [ { status := "✅ Success", condition := "Recovery threshold ≥ normal threshold" },
           { status := "⚠️ Warning", condition := "No recovery module or unknown threshold" },
           { status := "❌ Error", condition := "Recovery threshold < normal threshold (security risk)" } ]
       learnMoreUrl := "https://docs.safe.global/advanced/smart-account-modules" }),
    ("Contract Signers",
     { description := "Checks if any signers are smart contracts instead of EOAs. Contract signers require recursive security analysis."
       thresholds :=
         [ { status := "✅ Success", condition := "All signers are EOAs (externally owned accounts)" },
           { status := "⚠️ Warning", condition := "One or more signers are contracts (needs review)" } ]
       learnMoreUrl := "https://docs.safe.global/advanced/smart-account-signatures" }),
    ("Multi-Chain Signer Analysis",
     { description := "Only shown for multi-chain deployments. Analyzes whether the same signer addresses are reused across different chains where this Safe is deployed. Cross-chain signer reuse increases security risk because if a single private key is compromised, attackers could potentially gain control over the Safe on multiple blockchains simultaneously. Best practice is to use different signer addresses for each chain deployment."
       thresholds :=
         [ { status := "✅ Success", condition := "No signer addresses reused across chains" },
           { status := "⚠️ Warning", condition := "Same signer addresses used on multiple chains" } ]
       learnMoreUrl := "https://docs.safe.global/advanced/eip-155" }) ]

/-- The fallback record returned by `getTooltipInfo` for an unknown
title. -/
def defaultTooltipInfo : TooltipInfo :=
  { description := "Security check information"
    thresholds := []
    learnMoreUrl := "https://docs.safe.global/" }

/-- A runtime value produced by the bracket access
`SECURITY_CHECK_TOOLTIPS[title]` followed by `|| default`: either a
`TooltipInfo` record, or a member inherited from `Object.prototype`
(a built-in function, or the prototype object itself for `__proto__`).
Inherited members are objects and hence truthy, so the `||` does not
fall through on them. -/
inductive TooltipLookupValue where
  | info (i : TooltipInfo)
  | protoMember (name : String)
deriving DecidableEq, Repr

/-- The property names every plain JS object literal inherits from
`Object.prototype`: bracket access at any of these on the tooltip
table yields the truthy inherited member, not `undefined`. -/
def OBJECT_PROTOTYPE_PROPERTIES : List String :=
  [ "constructor", "hasOwnProperty", "isPrototypeOf", "propertyIsEnumerable",
    "toLocaleString", "toString", "valueOf", "__defineGetter__",
    "__defineSetter__", "__lookupGetter__", "__lookupSetter__", "__proto__" ]

/-- `getTooltipInfo` from `src/constants/tooltips.ts`:
`SECURITY_CHECK_TOOLTIPS[title] || default`.  JS bracket access on a
plain object literal consults the prototype chain, so an own key of the
table yields its registered record, an `Object.prototype` property name
yields the truthy inherited member (the `||` does not fall through),
and only any other string yields `undefined` and hence the fixed
default record. -/
def getTooltipInfo (title : String) : TooltipLookupValue :=
  match SECURITY_CHECK_TOOLTIPS.lookup title with
  | some info => .info info
  | none =>
    if title ∈ OBJECT_PROTOTYPE_PROPERTIES then .protoMember title
    else .info defaultTooltipInfo

set_option maxRecDepth 100000 in
lemma lookup_tooltips_of_mem :
    ∀ p ∈ SECURITY_CHECK_TOOLTIPS, SECURITY_CHECK_TOOLTIPS.lookup p.1 = some p.2 := by
  decide

set_option maxRecDepth 100000 in
/-- C10 counterexample: the string "toString" is not one of the 14
registered rule titles, yet `getTooltipInfo` returns the truthy
member inherited from `Object.prototype`, not the fixed default
record — so the claimed for-any-other-string default is false of the
program. -/
theorem getTooltipInfo_proto_leak :
    SECURITY_CHECK_TOOLTIPS.lookup "toString" = none
  ∧ getTooltipInfo "toString" = .protoMember "toString"
  ∧ getTooltipInfo "toString" ≠ .info defaultTooltipInfo := by
  refine ⟨rfl, rfl, by decide⟩

/-- C10 amended: `getTooltipInfo` never throws; for each of the 14
registered rule titles it returns that rule's registered entry; for a
title that is an `Object.prototype` property name it returns the
inherited prototype member instead of the default record; and for any
other string it returns the fixed default record (description
"Security check information", empty thresholds, the docs URL). -/
theorem getTooltipInfo_semantics (title : String) :
    (∀ info, (title, info) ∈ SECURITY_CHECK_TOOLTIPS → getTooltipInfo title = .info info)
  ∧ (SECURITY_CHECK_TOOLTIPS.lookup title = none → title ∈ OBJECT_PROTOTYPE_PROPERTIES →
      getTooltipInfo title = .protoMember title)
  ∧ (SECURITY_CHECK_TOOLTIPS.lookup title = none → title ∉ OBJECT_PROTOTYPE_PROPERTIES →
      getTooltipInfo title = .info defaultTooltipInfo)
  ∧ SECURITY_CHECK_TOOLTIPS.length = 14
  ∧ defaultTooltipInfo.description = "Security check information"
  ∧ defaultTooltipInfo.thresholds = []
  ∧ defaultTooltipInfo.learnMoreUrl = "https://docs.safe.global/" := by
  refine ⟨?_, ?_, ?_, rfl, rfl, rfl, rfl⟩
  · intro info h
    unfold getTooltipInfo
    rw [lookup_tooltips_of_mem (title, info) h]
  · intro hnone hmem
    unfold getTooltipInfo
    rw [hnone]
    exact if_pos hmem
  · intro hnone hnm
    unfold getTooltipInfo
    rw [hnone]
    exact if_neg hnm

/-- Witness for C10 at a string that is neither a registered rule title
nor an `Object.prototype` property name. -/
theorem getTooltipInfo_semantics_witness :
    getTooltipInfo "Unknown Check" = .info defaultTooltipInfo :=
  (getTooltipInfo_semantics "Unknown Check").2.2.1 rfl (by decide)

/-- Modelled from the spec: the Signer Threshold rule (its evaluator is
not part of the repository snapshot; the tiers are those of the spec's
rule table and of the `Signer Threshold` tooltip entry): threshold ≥ 4
passes, 2-3 warns, 1 fails. -/
def signerThresholdStatus (t : Nat) : CheckStatus :=
  if 4 ≤ t then .Pass else if 2 ≤ t then .Warn else .Fail

/-- C3: for every threshold t ≥ 1, t = 1 yields Fail, 2 ≤ t ≤ 3 yields
Warn and t ≥ 4 yields Pass; the iff form makes the three tiers
exhaustive and mutually exclusive. -/
theorem signer_threshold_tiers (t : Nat) (h : 1 ≤ t) :
    (signerThresholdStatus t = .Fail ↔ t = 1)
  ∧ (signerThresholdStatus t = .Warn ↔ 2 ≤ t ∧ t ≤ 3)
  ∧ (signerThresholdStatus t = .Pass ↔ 4 ≤ t) := by
  unfold signerThresholdStatus
  split_ifs with h4 h2 <;>
    refine ⟨?_, ?_, ?_⟩ <;> simp <;> omega

/-- Witness for C3 at threshold 2. -/
theorem signer_threshold_tiers_witness :
    signerThresholdStatus 2 = .Warn :=
  ((signer_threshold_tiers 2 (by decide)).2.1).mpr (by decide)

/-- Modelled from the spec: the percentage computed by the Threshold
Percentage rule, `threshold / ownerCount * 100`, in exact rational
arithmetic. -/
def thresholdPercentage (threshold ownerCount : Nat) : ℚ :=
  (threshold : ℚ) / (ownerCount : ℚ) * 100

/-- Modelled from the spec: the Signer Threshold Percentage rule (its
evaluator is not part of the repository snapshot; the tiers are those of
the spec's rule table and of the `Signer Threshold Percentage` tooltip
entry): ≥ 51% passes, 34-50% warns, < 34% fails. -/
def thresholdPercentageStatus (threshold ownerCount : Nat) : CheckStatus :=
  if 51 ≤ thresholdPercentage threshold ownerCount then .Pass
  else if 34 ≤ thresholdPercentage threshold ownerCount then .Warn
  else .Fail

/-- C4: for ownerCount ≥ threshold ≥ 1 the rule maps the exact
percentage to tiers at the 51% and 34% boundaries, and the concrete
percentages 51, 50, 34, 33 land on Pass, Warn, Warn, Fail. -/
theorem threshold_percentage_tiers (threshold ownerCount : Nat)
    (_h1 : 1 ≤ threshold) (_h2 : threshold ≤ ownerCount) :
    (51 ≤ thresholdPercentage threshold ownerCount →
        thresholdPercentageStatus threshold ownerCount = .Pass)
  ∧ (34 ≤ thresholdPercentage threshold ownerCount ∧
        thresholdPercentage threshold ownerCount ≤ 50 →
        thresholdPercentageStatus threshold ownerCount = .Warn)
  ∧ (thresholdPercentage threshold ownerCount < 34 →
        thresholdPercentageStatus threshold ownerCount = .Fail)
  ∧ thresholdPercentageStatus 51 100 = .Pass
  ∧ thresholdPercentageStatus 50 100 = .Warn
  ∧ thresholdPercentageStatus 34 100 = .Warn
  ∧ thresholdPercentageStatus 33 100 = .Fail := by
  refine ⟨?_, ?_, ?_, ?_, ?_, ?_, ?_⟩
  · intro hp
    unfold thresholdPercentageStatus
    rw [if_pos hp]
  · rintro ⟨hlo, hhi⟩
    unfold thresholdPercentageStatus
    rw [if_neg (by linarith), if_pos hlo]
  · intro hp
    unfold thresholdPercentageStatus
    rw [if_neg (by linarith), if_neg (by linarith)]
  · unfold thresholdPercentageStatus thresholdPercentage
    norm_num
  · unfold thresholdPercentageStatus thresholdPercentage
    norm_num
  · unfold thresholdPercentageStatus thresholdPercentage
    norm_num
  · unfold thresholdPercentageStatus thresholdPercentage
    norm_num

/-- Witness for C4 at threshold 1 of 2 owners (exactly 50%). -/
theorem threshold_percentage_tiers_witness :
    thresholdPercentageStatus 1 2 = .Warn :=
  (threshold_percentage_tiers 1 2 (by norm_num) (by norm_num)).2.1
    (by unfold thresholdPercentage; norm_num)

/-- The Emergency Recovery rule as declared by the
`Emergency Recovery Mechanisms` entry of `SECURITY_CHECK_TOOLTIPS`
(its evaluator is not part of the repository snapshot; the tier
declaration in `src/constants/tooltips.ts` is): a known recovery
threshold at least the normal threshold passes, an absent recovery
module (or unknown recovery threshold) warns, and a known recovery
threshold below the normal threshold fails.  `none` stands for "no
recovery module or unknown threshold". -/
def emergencyRecoveryStatus (recoveryThreshold : Option Nat) (normalThreshold : Nat) :
    CheckStatus :=
  match recoveryThreshold with
  | none => .Warn
  | some r => if normalThreshold ≤ r then .Pass else .Fail

/-- C5 counterexample: with no recovery module the rule yields Warn,
not Pass, so the rule does have a Warn tier — and the code's own
tooltip entry declares that Warning tier explicitly. -/
theorem emergency_recovery_no_module_warns :
    emergencyRecoveryStatus none 2 = .Warn
  ∧ CheckStatus.Warn ≠ CheckStatus.Pass
  ∧ (SECURITY_CHECK_TOOLTIPS.lookup "Emergency Recovery Mechanisms").map
      (fun i => i.thresholds.map (fun e => e.status)) =
      some ["✅ Success", "⚠️ Warning", "❌ Error"]
  ∧ (SECURITY_CHECK_TOOLTIPS.lookup "Emergency Recovery Mechanisms").map
      (fun i => (i.thresholds.map (fun e => e.condition)).contains
        "No recovery module or unknown threshold") = some true := by
  refine ⟨rfl, by decide, by decide, by decide⟩

/-- C5 amended: the Emergency Recovery rule yields Pass when the
recovery threshold is known and at least the normal threshold, Warn
when no recovery module is present (or its threshold is unknown), and
Fail when the recovery threshold is known and strictly below the
normal threshold. -/
theorem emergency_recovery_tiers (r normal : Nat) :
    (emergencyRecoveryStatus (some r) normal = .Pass ↔ normal ≤ r)
  ∧ emergencyRecoveryStatus none normal = .Warn
  ∧ (emergencyRecoveryStatus (some r) normal = .Fail ↔ r < normal) := by
  refine ⟨?_, rfl, ?_⟩ <;>
    (simp only [emergencyRecoveryStatus]; split_ifs with h <;> simp <;> omega)

/-- Witness for C5 (amended) at recovery threshold 5 against normal
threshold 3. -/
theorem emergency_recovery_tiers_witness :
    emergencyRecoveryStatus (some 5) 3 = .Pass :=
  ((emergency_recovery_tiers 5 3).1).mpr (by decide)

/-- Modelled from the spec: the Last Transaction Date rule (its
evaluator is not part of the repository snapshot; the tiers are those
of the spec's rule table, `d ≤ 30` / `31-90` / `> 90` days since the
last transaction). -/
def lastTxStatus (daysSinceLastTx : Nat) : CheckStatus :=
  if daysSinceLastTx ≤ 30 then .Pass
  else if daysSinceLastTx ≤ 90 then .Warn
  else .Fail

/-- C6: every number of days since the last transaction falls in
exactly one tier — Pass iff d ≤ 30, Warn iff 31 ≤ d ≤ 90, Fail iff
d > 90 — with no overlap at the 30-day boundary. -/
theorem last_tx_recency_tiers (d : Nat) :
    (lastTxStatus d = .Pass ↔ d ≤ 30)
  ∧ (lastTxStatus d = .Warn ↔ 31 ≤ d ∧ d ≤ 90)
  ∧ (lastTxStatus d = .Fail ↔ 90 < d) := by
  unfold lastTxStatus
  split_ifs with h30 h90 <;> refine ⟨?_, ?_, ?_⟩ <;> simp <;> omega

/-- Witness for C6 at the 31-day boundary. -/
theorem last_tx_recency_tiers_witness :
    lastTxStatus 31 = .Warn :=
  ((last_tx_recency_tiers 31).2.1).mpr (by decide)

/-- The `OFFICIAL_SAFE_FALLBACK_HANDLERS` registry from the constants
file: the fixed mapping from handler address to handler name. -/
def OFFICIAL_SAFE_FALLBACK_HANDLERS : List (String × String) :=
  [ ("0x017062a1de2fe6b99be3d9d37841fed19f573804", "CompatibilityFallbackHandler"),
    ("0xf48f2b2d2a534e402487b3ee7c18c33aec0fe5e4", "CompatibilityFallbackHandler 1.3.0"),
    ("0xfd0732dc9e303f09fcef3a7388ad10a83459ec99", "CompatibilityFallbackHandler 1.4.1"),
    ("0xd5d82b6addc9027b22dca772aa68d5d74cdbdf44", "DefaultCallbackHandler"),
    ("0x7f6ab15b00e1e8e1d4ff2b25ce0e2e83dd5e24d1", "TokenCallbackHandler"),
    ("0x6ac8d65dc698ae07263e3a98aa698c33060b4a13", "TokenCallbackHandler"),
    ("0x98ffbbf51bb33a056b08ddf711f289936aaff717", "SignMessageLib"),
    ("0xa65387f16b013cf2af4605ad8aa5ec25a2cbda83", "SignMessageLib"),
    ("0x7cbb62eaa69f79e6873cd1ecb2392971036cfaa4", "CreateCall"),
    ("0x9b35af71d77eaf8d7e40252370304687390a1a52", "CreateCall"),
    ("0x59ad6735bcd8152b84860cb256dd9e96b85f69da", "SimulateTxAccessor"),
    ("0x727a77a074d1e6c4530e814f89e618a3298fc044", "SimulateTxAccessor") ]

/-- Modelled from the spec: the Fallback Handler rule (its evaluator is
not part of the repository snapshot; the registry above is, and the
spec fixes the decision): Pass when no handler is set or the handler is
a key of the official registry, Warn for any other handler. -/
def fallbackHandlerStatus (handler : Option String) : CheckStatus :=
  match handler with
  | none => .Pass
  | some a =>
    if (OFFICIAL_SAFE_FALLBACK_HANDLERS.lookup a).isSome then .Pass else .Warn

/-- C7: the Fallback Handler rule passes exactly when the handler is
absent or a key of the fixed official registry, warns on every other
address, and the registry maps a known key to its handler name. -/
theorem fallback_handler_rule (handler : Option String) :
    (fallbackHandlerStatus handler = .Pass ↔
        handler = none ∨
        ∃ a, handler = some a ∧ (OFFICIAL_SAFE_FALLBACK_HANDLERS.lookup a).isSome = true)
  ∧ (∀ a, OFFICIAL_SAFE_FALLBACK_HANDLERS.lookup a = none →
        fallbackHandlerStatus (some a) = .Warn)
  ∧ OFFICIAL_SAFE_FALLBACK_HANDLERS.lookup "0x017062a1de2fe6b99be3d9d37841fed19f573804" =
      some "CompatibilityFallbackHandler" := by
  refine ⟨?_, ?_, rfl⟩
  · cases handler with
    | none => simp [fallbackHandlerStatus]
    | some a =>
      simp only [fallbackHandlerStatus]
      split_ifs with h
      · exact iff_of_true rfl (Or.inr ⟨a, rfl, h⟩)
      · refine iff_of_false (by decide) ?_
        rintro (hn | ⟨a2, ha2, hs⟩)
        · exact hn
        · cases ha2
          exact h hs
  · intro a h
    simp only [fallbackHandlerStatus]
    rw [h]
    rfl

/-- Witness for C7 at an address outside the registry. -/
theorem fallback_handler_rule_witness :
    fallbackHandlerStatus (some "0x00000000000000000000000000000000deadbeef") = .Warn :=
  (fallback_handler_rule (some "0x00000000000000000000000000000000deadbeef")).2.1
    "0x00000000000000000000000000000000deadbeef" rfl

/-- The `SENTINEL_MODULES_ADDRESS` constant from the constants file:
the address signalling module-list start and end. -/
def SENTINEL_MODULES_ADDRESS : String := "0x0000000000000000000000000000000000000001"

/-- Modelled from the spec: one `getModulesPaginated` read against a
chain holding the module list `ms` (the fetcher itself is not part of
the repository snapshot).  `offset` counts the modules already returned
by earlier pages; the call returns the next page of at most `pageSize`
modules together with the next cursor, which equals the sentinel
exactly when the page exhausts the list and is otherwise the last
address of the page. -/
def fetchModulesPage (ms : List String) (offset pageSize : Nat) : List String × String :=
  ( (ms.drop offset).take pageSize,
    if ms.length ≤ offset + pageSize then SENTINEL_MODULES_ADDRESS
    else ((ms.drop offset).take pageSize).getLastD SENTINEL_MODULES_ADDRESS )

/-- Modelled from the spec: the bound on total pages fetched before the
enumeration is treated as an error instead of looping forever. -/
def MAX_MODULE_PAGES : Nat := 64

/-- Modelled from the spec: the cursor-driven module-enumeration loop.
Each round fetches one page, appends it to the accumulator and counts
the fetch call; it stops when the returned cursor equals the sentinel
again or the page is smaller than the requested page size, and reports
an error when the page bound is exhausted. -/
def paginateModulesAux (ms : List String) (pageSize : Nat) :
    Nat → Nat → List String → Nat → Except String (List String × Nat)
  | 0, _, _, _ => .error "module pagination exceeded page bound"
  | fuel + 1, offset, acc, calls =>
    if (fetchModulesPage ms offset pageSize).2 = SENTINEL_MODULES_ADDRESS ∨
        (fetchModulesPage ms offset pageSize).1.length < pageSize then
      .ok (acc ++ (fetchModulesPage ms offset pageSize).1, calls + 1)
    else
      paginateModulesAux ms pageSize fuel (offset + pageSize)
        (acc ++ (fetchModulesPage ms offset pageSize).1) (calls + 1)

/-- Modelled from the spec: full module enumeration, starting from the
sentinel cursor (offset 0) with an empty accumulator and the page
bound. -/
def paginateModules (ms : List String) (pageSize : Nat) : Except String (List String × Nat) :=
  paginateModulesAux ms pageSize MAX_MODULE_PAGES 0 [] 0

/-- A module list of 130 distinct addresses. -/
def demoModules : List String := (List.range 130).map (fun n => "0xmod" ++ toString n)

lemma paginateModulesAux_ok (ms : List String) (pageSize : Nat)
    (hp : 1 ≤ pageSize) (hs : SENTINEL_MODULES_ADDRESS ∉ ms) :
    ∀ fuel offset acc calls, 1 ≤ fuel →
      ms.length ≤ offset + fuel * pageSize →
      ∃ k, paginateModulesAux ms pageSize fuel offset acc calls =
          .ok (acc ++ ms.drop offset, calls + k) ∧ 1 ≤ k ∧ k ≤ fuel := by
  intro fuel
  induction fuel with
  | zero => intro offset acc calls h1 _; omega
  | succ fuel ih =>
    intro offset acc calls _ hlen
    by_cases hend : ms.length ≤ offset + pageSize
    · refine ⟨1, ?_, le_refl 1, by omega⟩
      have hcur : (fetchModulesPage ms offset pageSize).2 = SENTINEL_MODULES_ADDRESS := by
        simp only [fetchModulesPage]
        rw [if_pos hend]
      have hpage : (fetchModulesPage ms offset pageSize).1 = ms.drop offset := by
        simp only [fetchModulesPage]
        refine List.take_of_length_le ?_
        rw [List.length_drop]
        omega
      rw [paginateModulesAux, if_pos (Or.inl hcur), hpage]
    · push_neg at hend
      have hdlen : (ms.drop offset).length = ms.length - offset := List.length_drop _ _
      have hplen : (fetchModulesPage ms offset pageSize).1.length = pageSize := by
        simp only [fetchModulesPage]
        rw [List.length_take, hdlen]
        omega
      have hpne : (fetchModulesPage ms offset pageSize).1 ≠ [] := by
        intro h
        rw [h] at hplen
        simp at hplen
        omega
      have hcur : (fetchModulesPage ms offset pageSize).2 ≠ SENTINEL_MODULES_ADDRESS := by
        simp only [fetchModulesPage]
        rw [if_neg (by omega)]
        rw [List.getLastD_eq_getLast?, List.getLast?_eq_getLast _ (by simpa [fetchModulesPage] using hpne)]
        simp only [Option.getD_some]
        intro hEq
        apply hs
        rw [← hEq]
        have hmem := List.getLast_mem (l := ((ms.drop offset).take pageSize))
          (by simpa [fetchModulesPage] using hpne)
        exact List.drop_subset _ _ (List.take_subset _ _ hmem)
      have hfuel : 1 ≤ fuel := by
        rcases Nat.eq_zero_or_pos fuel with h0 | h1
        · subst h0
          simp at hlen
          omega
        · exact h1
      have hlen2 : ms.length ≤ (offset + pageSize) + fuel * pageSize := by
        rw [Nat.succ_mul] at hlen
        omega
      obtain ⟨k, hrec, hk1, hk2⟩ :=
        ih (offset + pageSize) (acc ++ (fetchModulesPage ms offset pageSize).1) (calls + 1)
          hfuel hlen2
      refine ⟨k + 1, ?_, by omega, by omega⟩
      rw [paginateModulesAux, if_neg (by push_neg; exact ⟨hcur, by omega⟩), hrec]
      have hsplit : (fetchModulesPage ms offset pageSize).1 ++ ms.drop (offset + pageSize) =
          ms.drop offset := by
        simp only [fetchModulesPage]
        rw [← List.drop_drop, List.take_append_drop]
      rw [List.append_assoc, hsplit, show calls + 1 + k = calls + (k + 1) from by omega]

set_option maxRecDepth 100000 in
/-- C8: module pagination always terminates — for any module list not
containing the sentinel and fitting in the page bound it returns the
whole list in order with a bounded number of fetch calls; a list of 130
addresses with page size 50 takes exactly 3 fetch calls and returns all
130 addresses in original order with no duplicates; and a list
exceeding the page bound yields an error rather than an infinite
loop. -/
theorem module_pagination_terminates (ms : List String) (pageSize : Nat)
    (hp : 1 ≤ pageSize) (hs : SENTINEL_MODULES_ADDRESS ∉ ms)
    (hb : ms.length ≤ MAX_MODULE_PAGES * pageSize) :
    (∃ calls, paginateModules ms pageSize = .ok (ms, calls) ∧
        1 ≤ calls ∧ calls ≤ MAX_MODULE_PAGES)
  ∧ paginateModules demoModules 50 = .ok (demoModules, 3)
  ∧ demoModules.length = 130
  ∧ demoModules.Nodup
  ∧ paginateModules (List.replicate 65 "0xaa") 1 =
      .error "module pagination exceeded page bound" := by
  refine ⟨?_, by rfl, by rfl, by decide, by rfl⟩
  obtain ⟨k, hres, hk1, hk2⟩ :=
    paginateModulesAux_ok ms pageSize hp hs MAX_MODULE_PAGES 0 [] 0 (by decide)
      (by simpa using hb)
  refine ⟨k, ?_, hk1, hk2⟩
  unfold paginateModules
  rw [hres]
  simp

set_option maxRecDepth 100000 in
/-- Witness for C8 at the 130-address, page-size-50 module list. -/
theorem module_pagination_terminates_witness :
    paginateModules demoModules 50 = .ok (demoModules, 3) :=
  (module_pagination_terminates demoModules 50 (by decide) (by decide) (by decide)).2.1

end MultisigSec
